import Mathlib

/-!
Shallow embedding of the flandy-ai multi-agent workflow core
(`src/models/state.py`, `src/agents/nodes/*.py`, `src/agents/graph.py`,
`src/agents/communication_agent.py`).

External collaborators (the LLM completion service, the schedule store,
the wall clock) are passed in as explicit oracle arguments: an LLM call
that may fail at transport level is an `Except String String`, the
current time is a `String` argument `now`.  Python `float` quantities are
modelled as `ℚ`; Python `int` as `Int` (counters that the code only ever
increments from 0 as `Nat`).
-/

namespace Flandy

/-! ### Data model (src/models/state.py) -/

/-- The `Literal` type of `Task.agent` in `src/models/state.py` (six
admissible values, including `supervisor`). -/
inductive AgentType where
  | health
  | plan
  | data
  | worklife
  | communication
  | supervisor
deriving DecidableEq, Repr

/-- The literal string of each `Task.agent` value. -/
def AgentType.literal : AgentType → String
  | .health => "health_agent"
  | .plan => "plan_agent"
  | .data => "data_agent"
  | .worklife => "worklife_balance_agent"
  | .communication => "communication_agent"
  | .supervisor => "supervisor"

/-- Pydantic validation of the `agent` field: a string is accepted
exactly when it is one of the six literals (`Task(...)` raises a
`ValidationError` otherwise). -/
def parseAgent (s : String) : Option AgentType :=
  if s = "health_agent" then some .health
  else if s = "plan_agent" then some .plan
  else if s = "data_agent" then some .data
  else if s = "worklife_balance_agent" then some .worklife
  else if s = "communication_agent" then some .communication
  else if s = "supervisor" then some .supervisor
  else none

/-- `Task` (src/models/state.py lines 13-39). -/
structure Task where
  agent : AgentType
  done : Bool
  description : String
  done_at : String
  priority : Int
  user_id : Int
deriving DecidableEq, Repr

/-- One entry of the `messages` list.  In the source a message is a dict
with keys `role`, `content`, `timestamp` and (for assistant messages) an
`agent` tag; the communication node's extra keys (`user_id`, `intent`,
`confidence`) are presentation-only and elided here. -/
structure Message where
  role : String
  content : String
  timestamp : String
  agent : Option String
deriving DecidableEq, Repr

/-- `HealthData` (src/models/state.py lines 53-60); `habit_patterns`
(an opaque dict) is modelled as an association list. -/
structure HealthData where
  health_score : ℚ
  stress_level : ℚ
  sleep_quality : ℚ
  exercise_frequency : ℚ
  habit_patterns : List (String × String)
  recommendations : List String
deriving DecidableEq, Repr

/-- `ScheduleData` (src/models/state.py lines 63-70); the task / time
block dicts are opaque to the workflow core and modelled as strings. -/
structure ScheduleData where
  schedule_id : String
  tasks : List String
  time_blocks : List String
  efficiency_score : ℚ
  conflicts : List String
deriving DecidableEq, Repr

/-- `WorkLifeBalanceData` (src/models/state.py lines 73-79). -/
structure WorkLifeBalanceData where
  balance_score : ℚ
  work_hours : ℚ
  leisure_hours : ℚ
  stress_indicators : List String
  improvement_suggestions : List String
deriving DecidableEq, Repr

/-- `UserFeedback` (src/models/state.py lines 82-90). -/
structure UserFeedback where
  feedback_id : String
  user_id : Int
  text : String
  rating : ℚ
  category : String
  sentiment : String
deriving DecidableEq, Repr

/-- `State` (src/models/state.py lines 93-124).  `user_preferences` and
`context` are opaque dicts modelled as association lists. -/
structure State where
  messages : List Message
  user_input : String
  ai_response : String
  task_history : List Task
  current_task : Option Task
  supervisor_call_count : Nat
  user_id : Int
  user_request : String
  user_preferences : List (String × String)
  health_data : Option HealthData
  schedule_data : Option ScheduleData
  worklife_data : Option WorkLifeBalanceData
  feedback_data : List UserFeedback
  system_status : String
  error_messages : List String
  recommendations : List String
  ai_recommendation : String
  context : List (String × String)
  session_id : String
  timestamp : String
deriving DecidableEq, Repr

/-! ### Supervisor decision parsing (src/agents/nodes/supervisor_node.py,
`decide_next_task` lines 90-206)

The LLM transport is an oracle `Except String String`: `.error` is a
raised exception anywhere in the `try` block (connection failure, missing
key, ...), `.ok content` is `response.content`.  String scanning is done
with structural char-list helpers mirroring the Python `str` methods used
by the source (`strip`, `lower`, `split('\n')`, `split(':', 1)`, `int`).
-/

/-- Python `str.split(sep)` on a single-character separator. -/
def splitCharAux (sep : Char) : List Char → List Char → List (List Char)
  | [], acc => [acc.reverse]
  | c :: rest, acc =>
      if c = sep then acc.reverse :: splitCharAux sep rest []
      else splitCharAux sep rest (c :: acc)

def splitChar (sep : Char) (cs : List Char) : List (List Char) :=
  splitCharAux sep cs []

/-- Whitespace for Python `str.strip()` (the ASCII subset that can occur
in the strings the scanner sees). -/
def isPySpace (c : Char) : Bool :=
  c = ' ' || c = '\t' || c = '\n' || c = '\r'

/-- Python `str.strip()`. -/
def pyStrip (cs : List Char) : List Char :=
  ((cs.dropWhile isPySpace).reverse.dropWhile isPySpace).reverse

/-- Python `str.lower()` (ASCII). -/
def pyLower (cs : List Char) : List Char :=
  cs.map Char.toLower

def digitsVal (cs : List Char) : Nat :=
  cs.foldl (fun a c => a * 10 + (c.toNat - 48)) 0

/-- Python `int(value)` restricted to the shapes that succeed there: an
optional sign followed by a non-empty digit run (the value is already
stripped by the caller); anything else raises, which the source turns
into the default `5`. -/
def pyToInt (cs : List Char) : Option Int :=
  match cs with
  | '+' :: rest =>
      if rest ≠ [] ∧ rest.all Char.isDigit then some (digitsVal rest) else none
  | '-' :: rest =>
      if rest ≠ [] ∧ rest.all Char.isDigit then some (-(digitsVal rest : Int)) else none
  | rest =>
      if rest ≠ [] ∧ rest.all Char.isDigit then some (digitsVal rest) else none

/-- Python `line.split(':', 1)`: `some (key, value)` when the line
contains a colon, splitting at the first one. -/
def splitFirstColon (cs : List Char) : Option (List Char × List Char) :=
  if cs.contains ':' then
    some (cs.takeWhile (· ≠ ':'), (cs.dropWhile (· ≠ ':')).tail)
  else none

/-- The `result` dict being filled by the response-parsing loop. -/
structure ScanAcc where
  agent : Option String
  description : Option String
  priority : Option Int
deriving DecidableEq, Repr

def ScanAcc.empty : ScanAcc := ⟨none, none, none⟩

/-- The body of the `if key == 'agent': ... elif ... elif 'priority'`
chain (supervisor_node.py lines 180-188), after key/value normalisation. -/
def processKV (acc : ScanAcc) (key value : String) : ScanAcc :=
  if key = "agent" then { acc with agent := some value }
  else if key = "description" then { acc with description := some value }
  else if key = "priority" then
    { acc with priority := some ((pyToInt value.data).getD 5) }
  else acc

/-- One iteration of `for line in lines:` (supervisor_node.py lines
174-188). -/
def processLine (acc : ScanAcc) (line : List Char) : ScanAcc :=
  match splitFirstColon line with
  | none => acc
  | some (k, v) => processKV acc ⟨pyLower (pyStrip k)⟩ ⟨pyStrip v⟩

/-- `content.strip().split('\n')` followed by the scanning loop. -/
def scanContent (content : String) : ScanAcc :=
  (splitChar '\n' (pyStrip content.data)).foldl processLine ScanAcc.empty

/-- The `(agent, description, priority)` dict returned by
`decide_next_task`. -/
structure TaskDecision where
  agent : String
  description : String
  priority : Int
deriving DecidableEq, Repr

/-- The fallback / default triple (supervisor_node.py lines 190-196 and
200-206). -/
def defaultDecision : TaskDecision :=
  { agent := "communication_agent"
    description := "사용자 요청을 처리합니다."
    priority := 5 }

/-- The forced budget-exceeded triple (supervisor_node.py lines 106-111). -/
def forcedDecision : TaskDecision :=
  { agent := "communication_agent"
    description := "Supervisor 호출 횟수를 초과했으므로, 현재까지의 진행 상황을 사용자에게 보고합니다."
    priority := 1 }

/-- `decide_next_task` (supervisor_node.py lines 90-206).  The prompt
built from the state only influences the oracle's answer, so the state
enters the model through `supervisor_call_count` alone; `llm` is the
transport oracle. -/
def decideNextTask (supervisor_call_count : Nat) (llm : Except String String) :
    TaskDecision :=
  if supervisor_call_count > 3 then forcedDecision
  else
    match llm with
    | .error _ => defaultDecision
    | .ok content =>
        let acc := scanContent content
        { agent := acc.agent.getD "communication_agent"
          description := acc.description.getD "사용자 요청을 처리합니다."
          priority := acc.priority.getD 5 }

/-- The routing message appended by the supervisor (supervisor_node.py
lines 56-62); numeric-free interpolation kept verbatim. -/
def supervisorContent (t : Task) : String :=
  "[Supervisor] 다음 작업 결정: " ++ t.agent.literal ++ " - " ++ t.description

/-- `supervisor_node` (supervisor_node.py lines 17-87).  The
`Task(...)` construction validates the agent literal; a validation
failure (or any other exception in the body) lands in the `except`
branch, which appends to `error_messages` and returns without the
increment or the routing updates. -/
def supervisorNode (s : State) (llm : Except String String) (now : String) :
    State :=
  let d := decideNextTask s.supervisor_call_count llm
  match parseAgent d.agent with
  | some a =>
      let t : Task :=
        { agent := a, done := false, description := d.description
          done_at := "", priority := d.priority, user_id := s.user_id }
      { s with
          messages := s.messages ++
            [{ role := "assistant", content := supervisorContent t
               timestamp := now, agent := some "supervisor" }]
          task_history := s.task_history ++ [t]
          current_task := some t
          supervisor_call_count := s.supervisor_call_count + 1
          system_status := "task_assigned" }
  | none =>
      { s with
          error_messages := s.error_messages ++
            ["Supervisor node error: validation error"]
          system_status := "error" }

/-- `supervisor_router` (supervisor_node.py lines 239-253). -/
def supervisorRouter (s : State) : String :=
  match s.current_task with
  | none => "communication_agent"
  | some t => t.agent.literal

/-! ### Domain handler nodes (src/agents/nodes/*.py)

Each node's analysis step delegates to the external LLM / schedule-store
collaborators; the record it produces is passed in as an oracle argument,
as are the generated recommendation string and the current time `now`.
The state-manipulation skeleton (precondition check, message append,
task completion, slot write, status tag) is translated verbatim. -/

/-- `task_history[-1].done = True; task_history[-1].done_at = now`
guarded by `if task_history:` (every node, e.g. worklife_node.py lines
65-68). -/
def markLastDone (hist : List Task) (now : String) : List Task :=
  match hist.getLast? with
  | none => hist
  | some t => hist.dropLast ++ [{ t with done := true, done_at := now }]

/-- Python `dict[key] = value` on an association-list model of a dict. -/
def setKey (ctx : List (String × String)) (k v : String) :
    List (String × String) :=
  (ctx.filter (fun p => p.1 ≠ k)) ++ [(k, v)]

/-- `health_node` (health_node.py lines 17-118): `analysis` is the
record produced by `analyze_health_data`, `aiRec` the generated
recommendation, `planPrompt`/`worklifePrompt` the prompt-service output.
Message content keeps the fixed prefix; the interpolated numeric
rendering is elided as presentation-only, as is the `ai_response`
narrative text this node assembles from the same values. -/
def healthNode (s : State) (analysis : HealthData) (aiRec : String)
    (planPrompt worklifePrompt : String) (aiResp : String) (now : String) :
    State :=
  match s.current_task with
  | none => s
  | some t =>
      if t.agent = .health then
        { s with
            messages := s.messages ++
              [{ role := "assistant"
                 content := "[Health Agent] 건강 분석 완료"
                 timestamp := now, agent := some "health_agent" }]
            health_data := some analysis
            task_history := markLastDone s.task_history now
            ai_recommendation := aiRec
            ai_response := aiResp
            system_status := "health_analysis_completed"
            context := setKey (setKey s.context "health_to_plan_prompt" planPrompt)
              "health_to_worklife_prompt" worklifePrompt }
      else s

/-- `plan_node` (plan_node.py lines 20-107). -/
def planNode (s : State) (plan : ScheduleData) (aiRec : String)
    (aiResp : String) (now : String) : State :=
  match s.current_task with
  | none => s
  | some t =>
      if t.agent = .plan then
        { s with
            messages := s.messages ++
              [{ role := "assistant"
                 content := "[Plan Agent] 일정 계획 완료"
                 timestamp := now, agent := some "plan_agent" }]
            schedule_data := some plan
            task_history := markLastDone s.task_history now
            ai_recommendation := aiRec
            ai_response := aiResp
            system_status := "schedule_plan_completed" }
      else s

/-- `data_node` (data_node.py lines 17-109): `newFeedback` is the
optional `new_feedback` entry of `perform_data_analysis` (present only
when the request mentions feedback), appended to `feedback_data`. -/
def dataNode (s : State) (newFeedback : Option UserFeedback) (aiRec : String)
    (aiResp : String) (now : String) : State :=
  match s.current_task with
  | none => s
  | some t =>
      if t.agent = .data then
        { s with
            messages := s.messages ++
              [{ role := "assistant"
                 content := "[Data Agent] 데이터 분석 완료"
                 timestamp := now, agent := some "data_agent" }]
            feedback_data := s.feedback_data ++ newFeedback.toList
            task_history := markLastDone s.task_history now
            ai_recommendation := aiRec
            ai_response := aiResp
            system_status := "data_analysis_completed" }
      else s

/-- `worklife_node` (worklife_node.py lines 17-102). -/
def worklifeNode (s : State) (analysis : WorkLifeBalanceData) (aiRec : String)
    (aiResp : String) (now : String) : State :=
  match s.current_task with
  | none => s
  | some t =>
      if t.agent = .worklife then
        { s with
            messages := s.messages ++
              [{ role := "assistant"
                 content := "[WorkLife Agent] 워라벨 분석 완료"
                 timestamp := now, agent := some "worklife_balance_agent" }]
            worklife_data := some analysis
            task_history := markLastDone s.task_history now
            ai_recommendation := aiRec
            ai_response := aiResp
            system_status := "worklife_analysis_completed" }
      else s

/-- `generate_communication_recommendation` (communication_node.py lines
484-505): pure function of intent and confidence. -/
def genCommRecommendation (intent : String) (confidence : ℚ) : String :=
  if confidence > 8/10 then
    "사용자의 의도(" ++ intent ++ ")가 명확하게 파악되었습니다."
  else if confidence > 1/2 then
    "사용자의 의도(" ++ intent ++ ")를 어느 정도 파악했습니다."
  else
    "사용자의 의도를 명확히 파악하기 어렵습니다. 추가 정보가 필요할 수 있습니다."

/-- `communication_node` (communication_node.py lines 17-97): `response`
and `intent`/`confidence` come from `process_user_communication`.  The
node appends a *user* message echoing `user_input` and then the
assistant message (lines 48-66); it has no per-domain record slot and
writes the response text into `ai_response` instead. -/
def communicationNode (s : State) (response : String) (intent : String)
    (confidence : ℚ) (now : String) : State :=
  match s.current_task with
  | none => s
  | some t =>
      if t.agent = .communication then
        { s with
            messages := s.messages ++
              [{ role := "user", content := s.user_input
                 timestamp := now, agent := none },
               { role := "assistant", content := response
                 timestamp := now, agent := some "communication_agent" }]
            ai_response := response
            task_history := markLastDone s.task_history now
            ai_recommendation := genCommRecommendation intent confidence
            system_status := "communication_completed" }
      else s

/-! ### WorkLife balance score (worklife_node.py, `analyze_worklife_balance`
lines 209-223 and 256-262) -/

/-- The score branch of `analyze_worklife_balance` (lines 209-223):
`actual_ratio = work_hours / max(personal_hours, 0.1)` — the denominator
is clamped at 0.1 to avoid division by zero — then the 1.2 / 1.5
thresholds. -/
def balanceScoreOfHours (work personal : ℚ) : ℚ :=
  if work + personal = 0 then 50
  else
    let r := work / max personal (1/10)
    if r ≤ 12/10 then 85
    else if r ≤ 15/10 then 70
    else 50

/-- The stress adjustment (lines 256-262): subtract 10 when a HealthData
with `stress_level > 7` is in the state. -/
def adjustScoreForStress (score : ℚ) (health : Option HealthData) : ℚ :=
  match health with
  | none => score
  | some h => if h.stress_level > 7 then score - 10 else score

/-! ### Workflow engine (src/agents/graph.py) -/

/-- The graph's node set (graph.py lines 58-63). -/
inductive GNode where
  | supervisor
  | health
  | plan
  | data
  | worklife
  | communication
deriving DecidableEq, Repr

/-- The static edges added in `_build_langgraph` (graph.py lines 82-86):
`health→plan`, `plan→worklife`, `data→worklife`, `worklife→communication`,
`communication→END` (`none`).  The supervisor's outgoing edge is the
conditional one, handled separately. -/
def nextStatic : GNode → Option GNode
  | .health => some .plan
  | .plan => some .worklife
  | .data => some .worklife
  | .worklife => some .communication
  | .communication => none
  | .supervisor => none

/-- The conditional-edge mapping of `add_conditional_edges` (graph.py
lines 69-79): the router's string is dispatched through these five
entries only. -/
def condEdgeMap (routed : String) : Option GNode :=
  if routed = "health_agent" then some .health
  else if routed = "plan_agent" then some .plan
  else if routed = "data_agent" then some .data
  else if routed = "worklife_balance_agent" then some .worklife
  else if routed = "communication_agent" then some .communication
  else none

/-- The chain of nodes visited from `n` along the static edges, with
fuel (the graph has at most 4 static hops, so any fuel ≥ 5 is exact). -/
def chainFrom (fuel : Nat) (n : GNode) : List GNode :=
  match fuel with
  | 0 => []
  | fuel + 1 =>
      n :: (match nextStatic n with
            | none => []
            | some m => chainFrom fuel m)

/-- Node-visitation sequence of one run of the compiled LangGraph
(`START→supervisor`, then the conditional edge, then the static chain
to END): `none` when the router's output hits no entry of the
conditional-edge mapping (LangGraph raises in that case). -/
def langGraphVisited (s : State) (llm : Except String String) (now : String) :
    Option (List GNode) :=
  let s1 := supervisorNode s llm now
  match condEdgeMap (supervisorRouter s1) with
  | none => none
  | some h => some (GNode.supervisor :: chainFrom 5 h)

/-- Node-visitation sequence of `MockGraph.invoke` (graph.py lines
262-294): the supervisor runs, then the `if/elif` chain on
`current_task.agent` runs exactly one matching handler (or none), and
the run returns. -/
def mockGraphVisited (s : State) (llm : Except String String) (now : String) :
    List GNode :=
  let s1 := supervisorNode s llm now
  GNode.supervisor ::
    (match s1.current_task with
     | none => []
     | some t =>
         match t.agent with
         | .health => [.health]
         | .plan => [.plan]
         | .data => [.data]
         | .worklife => [.worklife]
         | .communication => [.communication]
         | .supervisor => [])

/-- `PlandyAIGraph.invoke` (graph.py lines 102-125): the inner graph run
is the oracle `run`; on an exception the engine returns the input state
with `system_status = "error"` and `error_messages` set to the
one-element list `["Graph execution error: ..."]` (the previous list is
replaced, not appended to). -/
def graphInvoke (s : State) (run : Except String State) : State :=
  match run with
  | .ok s' => s'
  | .error e =>
      { s with
          error_messages := ["Graph execution error: " ++ e]
          system_status := "error" }

/-- The `except` wrapper of `MockGraph.invoke` (graph.py lines 296-302),
same replacement shape with its own message prefix. -/
def mockGraphInvokeCatch (s : State) (run : Except String State) : State :=
  match run with
  | .ok s' => s'
  | .error e =>
      { s with
          error_messages := ["Mock graph execution error: " ++ e]
          system_status := "error" }

/-! ### Communication agent conversation cache
(src/agents/communication_agent.py, `_update_conversation_history`
lines 272-285) -/

/-- One cache entry (`{"message": ..., "sender": ..., "timestamp": ...}`). -/
structure ConvEntry where
  message : String
  sender : String
  timestamp : String
deriving DecidableEq, Repr

/-- `_update_conversation_history`: create the user's list if absent
(the total-function cache model makes that implicit), append the entry,
then keep only the last 50 (`[-50:]`) when the length exceeds 50. -/
def updateConversationHistory (cache : Int → List ConvEntry) (uid : Int)
    (message sender now : String) : Int → List ConvEntry :=
  fun u =>
    if u = uid then
      let h := cache uid ++ [⟨message, sender, now⟩]
      if 50 < h.length then h.drop (h.length - 50) else h
    else cache u

/-! ### Concrete test vectors used by witnesses and counterexamples -/

/-- An all-empty initial state (fresh counters, no tasks). -/
def initState : State :=
  { messages := [], user_input := "안녕", ai_response := "", task_history := []
    current_task := none, supervisor_call_count := 0, user_id := 1
    user_request := "", user_preferences := [], health_data := none
    schedule_data := none, worklife_data := none, feedback_data := []
    system_status := "idle", error_messages := [], recommendations := []
    ai_recommendation := "", context := [], session_id := "s1", timestamp := "t0" }

/-- The initial state with the supervisor counter forced to 4 on entry. -/
def budgetState : State := { initState with supervisor_call_count := 4 }

/-- A pending task naming agent `a`. -/
def pendingTask (a : AgentType) : Task :=
  { agent := a, done := false, description := "작업", done_at := ""
    priority := 5, user_id := 1 }

/-- A state correctly routed into the handler for agent `a`. -/
def routedState (a : AgentType) : State :=
  { initState with
      current_task := some (pendingTask a)
      task_history := [pendingTask a] }

/-- A state that already carries one error message. -/
def errState : State := { initState with error_messages := ["previous failure"] }

/-- A state whose current task names the supervisor itself. -/
def supTaskState : State :=
  { initState with current_task := some (pendingTask .supervisor) }

/-- Sample domain records for handler witnesses. -/
def sampleHealth : HealthData :=
  { health_score := 80, stress_level := 5, sleep_quality := 7
    exercise_frequency := 3, habit_patterns := [], recommendations := [] }

def sampleWorklife : WorkLifeBalanceData :=
  { balance_score := 85, work_hours := 8, leisure_hours := 7
    stress_indicators := [], improvement_suggestions := [] }

/-- A HealthData with `stress_level = 8` (exceeding the threshold 7). -/
def stressedHealth : HealthData :=
  { health_score := 60, stress_level := 8, sleep_quality := 5
    exercise_frequency := 1, habit_patterns := [], recommendations := [] }

/-- A conversation cache holding exactly 50 entries for user 1. -/
def sampleCache : Int → List ConvEntry :=
  fun u => if u = 1 then List.replicate 50 ⟨"old", "user", "t0"⟩ else []

/-- Auxiliary: marking the last task done rewrites exactly the final
entry of a non-empty history. -/
theorem markLastDone_concat (pre : List Task) (t : Task) (now : String) :
    markLastDone (pre ++ [t]) now =
      pre ++ [{ t with done := true, done_at := now }] := by
  simp [markLastDone]

/-- C1: whenever `supervisor_call_count > 3`, `decide_next_task` returns
the fixed budget-exceeded triple (Communication handler, fixed
description, priority 1) for every possible LLM transport outcome — the
LLM oracle is never consulted — and the supervisor node's resulting
`current_task` is the corresponding Communication task, regardless of
any other state content. -/
theorem supervisor_budget_forces_communication
    (s : State) (llm : Except String String) (now : String)
    (h : s.supervisor_call_count > 3) :
    decideNextTask s.supervisor_call_count llm = forcedDecision ∧
    (supervisorNode s llm now).current_task =
      some { agent := .communication, done := false
             description := "Supervisor 호출 횟수를 초과했으므로, 현재까지의 진행 상황을 사용자에게 보고합니다."
             done_at := "", priority := 1, user_id := s.user_id } := by
  constructor
  · simp [decideNextTask, h]
  · simp [supervisorNode, decideNextTask, h, forcedDecision, parseAgent]

/-- Witness for C1: on the concrete state whose counter was forced to 4
on entry, both conclusions hold for an arbitrary concrete LLM answer
that names a different agent. -/
theorem supervisor_budget_forces_communication_witness :
    budgetState.supervisor_call_count > 3 ∧
    decideNextTask budgetState.supervisor_call_count
        (.ok "agent: health_agent") = forcedDecision ∧
    (supervisorNode budgetState (.ok "agent: health_agent") "t1").current_task =
      some { agent := .communication, done := false
             description := "Supervisor 호출 횟수를 초과했으므로, 현재까지의 진행 상황을 사용자에게 보고합니다."
             done_at := "", priority := 1, user_id := budgetState.user_id } := by
  have h := supervisor_budget_forces_communication budgetState
    (.ok "agent: health_agent") "t1" (by decide)
  exact ⟨by decide, h.1, h.2⟩

/-- C7: the supervisor's decision step always produces a complete
(agent, description, priority) triple — a transport failure yields the
default triple; a field missing from the line-oriented scan of the
response is filled with its default (`communication_agent`, the default
description, `5`); an unparsable priority value is recorded as 5 at the
scanning step. -/
theorem supervisor_decision_always_complete
    (count : Nat) (llm : Except String String) (hc : count ≤ 3) :
    (∀ e, llm = Except.error e → decideNextTask count llm = defaultDecision) ∧
    (∀ content, llm = Except.ok content →
      ((scanContent content).agent = none →
        (decideNextTask count llm).agent = "communication_agent") ∧
      ((scanContent content).description = none →
        (decideNextTask count llm).description = "사용자 요청을 처리합니다.") ∧
      ((scanContent content).priority = none →
        (decideNextTask count llm).priority = 5)) ∧
    (∀ (acc : ScanAcc) (value : String), pyToInt value.data = none →
      (processKV acc "priority" value).priority = some 5) := by
  have hng : ¬ count > 3 := by omega
  refine ⟨?_, ?_, ?_⟩
  · intro e he
    subst he
    simp [decideNextTask, hng]
  · intro content he
    subst he
    refine ⟨?_, ?_, ?_⟩ <;> intro h <;> simp [decideNextTask, hng, h]
  · intro acc value h
    simp [processKV, h]

/-- Witness for C7: a response carrying only an unparsable priority line
yields the default agent and description and priority 5, and a transport
error yields the whole default triple. -/
theorem supervisor_decision_always_complete_witness :
    (decideNextTask 2 (.ok "priority: high")).agent = "communication_agent" ∧
    (decideNextTask 2 (.ok "priority: high")).description = "사용자 요청을 처리합니다." ∧
    (processKV ScanAcc.empty "priority" "high").priority = some 5 ∧
    decideNextTask 2 (.error "timeout") = defaultDecision := by
  have h := supervisor_decision_always_complete 2 (.ok "priority: high")
    (by decide)
  have h2 := supervisor_decision_always_complete 2 (.error "timeout")
    (by decide)
  exact ⟨(h.2.1 _ rfl).1 (by decide), (h.2.1 _ rfl).2.1 (by decide),
    h.2.2 ScanAcc.empty "high" (by decide), h2.1 "timeout" rfl⟩

/-- C3 counterexample: an LLM answer naming an agent outside the `Task`
literal set makes the `Task(...)` construction raise, the supervisor
node lands in its `except` branch, and the returned counter is NOT the
input counter plus one (it is unchanged, with an error recorded). -/
theorem supervisor_count_not_incremented_on_error_cx :
    (supervisorNode initState (.ok "agent: banana") "t1").supervisor_call_count ≠
      initState.supervisor_call_count + 1 ∧
    (supervisorNode initState (.ok "agent: banana") "t1").supervisor_call_count =
      initState.supervisor_call_count ∧
    (supervisorNode initState (.ok "agent: banana") "t1").system_status =
      "error" := by
  refine ⟨by decide, by decide, by decide⟩

/-- C3 amended: the returned counter is the input counter plus exactly
one on every invocation whose body completes normally (the decision's
agent passes `Task` validation); an invocation whose body raises
internally returns the state with the counter unchanged, an error entry
appended and `system_status = "error"`. -/
theorem supervisor_count_increment_amended
    (s : State) (llm : Except String String) (now : String) :
    ((parseAgent (decideNextTask s.supervisor_call_count llm).agent).isSome →
      (supervisorNode s llm now).supervisor_call_count =
        s.supervisor_call_count + 1) ∧
    (parseAgent (decideNextTask s.supervisor_call_count llm).agent = none →
      (supervisorNode s llm now).supervisor_call_count =
          s.supervisor_call_count ∧
      (supervisorNode s llm now).system_status = "error" ∧
      (supervisorNode s llm now).error_messages =
        s.error_messages ++ ["Supervisor node error: validation error"]) := by
  constructor
  · intro h
    cases hp : parseAgent (decideNextTask s.supervisor_call_count llm).agent with
    | none => rw [hp] at h; simp at h
    | some a => simp [supervisorNode, hp]
  · intro hp
    simp [supervisorNode, hp]

/-- Witness for C3 (amended): a well-formed LLM answer increments the
counter by one; the invalid-agent answer leaves it unchanged. -/
theorem supervisor_count_increment_amended_witness :
    (supervisorNode initState (.ok "agent: plan_agent") "t1").supervisor_call_count =
      initState.supervisor_call_count + 1 ∧
    (supervisorNode initState (.ok "agent: banana") "t2").supervisor_call_count =
      initState.supervisor_call_count := by
  have h1 := supervisor_count_increment_amended initState
    (.ok "agent: plan_agent") "t1"
  have h2 := supervisor_count_increment_amended initState
    (.ok "agent: banana") "t2"
  exact ⟨h1.1 (by decide), (h2.2 (by decide)).1⟩

/-- C10: for every state with a non-null current task, the router
returns the task's agent literal verbatim; the `Task.agent` field
admits the value `supervisor`, whose literal hits no entry of the
conditional-edge mapping, so the routing result is not always a
dispatchable handler name. -/
theorem router_passthrough_unmapped_supervisor :
    (∀ (s : State) (t : Task), s.current_task = some t →
      supervisorRouter s = t.agent.literal) ∧
    (∃ t : Task, t.agent = .supervisor ∧ condEdgeMap t.agent.literal = none) ∧
    (∀ (s : State) (t : Task), s.current_task = some t →
      t.agent = .supervisor → condEdgeMap (supervisorRouter s) = none) := by
  refine ⟨?_, ?_, ?_⟩
  · intro s t h
    simp [supervisorRouter, h]
  · exact ⟨pendingTask .supervisor, rfl, by decide⟩
  · intro s t h hag
    simp [supervisorRouter, h, hag, AgentType.literal, condEdgeMap]

/-- Witness for C10: on the concrete state whose current task names the
supervisor, the router returns `"supervisor"`, which the conditional
edge mapping does not dispatch. -/
theorem router_passthrough_unmapped_supervisor_witness :
    supervisorRouter supTaskState = "supervisor" ∧
    condEdgeMap (supervisorRouter supTaskState) = none := by
  have h := router_passthrough_unmapped_supervisor
  exact ⟨(h.1 supTaskState (pendingTask .supervisor) rfl).trans rfl,
    h.2.2 supTaskState (pendingTask .supervisor) rfl rfl⟩

/-- C2 counterexample: under the MockGraph fallback engine, a run routed
into Plan executes only the Supervisor and the Plan handler — WorkLife
and Communication are never visited, contradicting the claim that every
run continues along the static chain. -/
theorem mock_graph_single_handler_cx :
    mockGraphVisited initState (.ok "agent: plan_agent") "t1" =
      [GNode.supervisor, GNode.plan] ∧
    GNode.worklife ∉ mockGraphVisited initState (.ok "agent: plan_agent") "t1" ∧
    GNode.communication ∉
      mockGraphVisited initState (.ok "agent: plan_agent") "t1" := by
  refine ⟨by decide, by decide, by decide⟩

/-- C2 amended: under the compiled LangGraph engine, once the
conditional edge dispatches into a handler the run continues
unconditionally along the static edges (Health→Plan, Plan→WorkLife,
Data→WorkLife, WorkLife→Communication, Communication→END), so a run
routed into Plan also visits WorkLife and Communication; the MockGraph
fallback engine instead executes exactly the one routed handler after
the Supervisor and terminates. -/
theorem static_chain_by_engine :
    (∀ (s : State) (llm : Except String String) (now : String) (h : GNode),
      condEdgeMap (supervisorRouter (supervisorNode s llm now)) = some h →
      langGraphVisited s llm now = some (GNode.supervisor :: chainFrom 5 h)) ∧
    chainFrom 5 .health = [.health, .plan, .worklife, .communication] ∧
    chainFrom 5 .plan = [.plan, .worklife, .communication] ∧
    chainFrom 5 .data = [.data, .worklife, .communication] ∧
    chainFrom 5 .worklife = [.worklife, .communication] ∧
    chainFrom 5 .communication = [.communication] ∧
    (∀ (s : State) (llm : Except String String) (now : String) (t : Task),
      (supervisorNode s llm now).current_task = some t → t.agent = .plan →
      mockGraphVisited s llm now = [GNode.supervisor, GNode.plan]) := by
  refine ⟨?_, rfl, rfl, rfl, rfl, rfl, ?_⟩
  · intro s llm now h hmap
    simp [langGraphVisited, hmap]
  · intro s llm now t hcur hag
    simp [mockGraphVisited, hcur, hag]

/-- Witness for C2 (amended): a concrete run routed into Plan visits
the full static chain under LangGraph and only Plan under the mock. -/
theorem static_chain_by_engine_witness :
    langGraphVisited initState (.ok "agent: plan_agent") "t1" =
      some [GNode.supervisor, GNode.plan, GNode.worklife, GNode.communication] ∧
    mockGraphVisited initState (.ok "agent: plan_agent") "t1" =
      [GNode.supervisor, GNode.plan] := by
  have h := static_chain_by_engine
  refine ⟨h.1 initState (.ok "agent: plan_agent") "t1" .plan (by decide), ?_⟩
  exact h.2.2.2.2.2.2 initState (.ok "agent: plan_agent") "t1"
    { agent := .plan, done := false, description := "사용자 요청을 처리합니다."
      done_at := "", priority := 5, user_id := 1 } (by decide) rfl

/-- C8 counterexample: on an engine-level exception the engine REPLACES
`error_messages` with a fresh one-element list — the previous entry of
the input state is discarded, not preserved. -/
theorem engine_error_list_replaced_cx :
    (graphInvoke errState (.error "boom")).error_messages =
      ["Graph execution error: boom"] ∧
    errState.error_messages = ["previous failure"] ∧
    (graphInvoke errState (.error "boom")).error_messages ≠
      errState.error_messages ++ ["Graph execution error: boom"] := by
  refine ⟨by decide, by decide, by decide⟩

/-- C8 amended: on an engine-level exception, run-to-completion
execution terminates with `system_status = "error"` and `error_messages`
set to the one-element list holding the exception message (the previous
list is replaced); the caller receives the input state's `ai_response`;
the MockGraph engine's own exception wrapper behaves the same with its
prefix. -/
theorem engine_error_status_amended (s : State) (e : String) :
    (graphInvoke s (.error e)).system_status = "error" ∧
    (graphInvoke s (.error e)).error_messages =
      ["Graph execution error: " ++ e] ∧
    (graphInvoke s (.error e)).ai_response = s.ai_response ∧
    (mockGraphInvokeCatch s (.error e)).system_status = "error" ∧
    (mockGraphInvokeCatch s (.error e)).error_messages =
      ["Mock graph execution error: " ++ e] := by
  refine ⟨rfl, rfl, rfl, rfl, rfl⟩

/-- C4 counterexample: with work 0.1h and personal 0.05h the true
work-to-personal ratio is 2 (> 1.5, so the claim demands score 50), but
the code clamps the denominator at 0.1 and returns 85. -/
theorem balance_ratio_clamp_cx :
    ((1 : ℚ)/10) / ((1 : ℚ)/20) > 3/2 ∧
    balanceScoreOfHours (1/10) (1/20) = 85 := by
  constructor <;> norm_num [balanceScoreOfHours]

/-- C4 amended: the thresholds apply to the clamped ratio
`work_hours / max(personal_hours, 0.1)` (the code's guard against
division by zero): clamped ratio ≤ 1.2 → 85, in (1.2, 1.5] → 70,
> 1.5 → 50; and a present HealthData with `stress_level > 7` lowers the
final score by exactly 10. -/
theorem balance_score_thresholds_amended (work personal : ℚ)
    (hw : 0 ≤ work) (hp : 0 ≤ personal) (hpos : 0 < work + personal) :
    (work / max personal (1/10) ≤ 12/10 →
      balanceScoreOfHours work personal = 85) ∧
    (12/10 < work / max personal (1/10) →
      work / max personal (1/10) ≤ 15/10 →
      balanceScoreOfHours work personal = 70) ∧
    (15/10 < work / max personal (1/10) →
      balanceScoreOfHours work personal = 50) ∧
    (∀ h : HealthData, 7 < h.stress_level →
      adjustScoreForStress (balanceScoreOfHours work personal) (some h) =
        balanceScoreOfHours work personal - 10) := by
  have hne : work + personal ≠ 0 := ne_of_gt hpos
  refine ⟨?_, ?_, ?_, ?_⟩
  · intro hr
    simp only [balanceScoreOfHours, if_neg hne]
    rw [if_pos hr]
  · intro h1 h2
    simp only [balanceScoreOfHours, if_neg hne]
    rw [if_neg (not_le.mpr h1), if_pos h2]
  · intro h3
    simp only [balanceScoreOfHours, if_neg hne]
    rw [if_neg (not_le.mpr (by linarith)), if_neg (not_le.mpr h3)]
  · intro h hs
    simp [adjustScoreForStress, hs]

/-- Witness for C4 (amended): work 8h / personal 7h gives score 85, and
a stress level of 8 lowers it to 75. -/
theorem balance_score_thresholds_amended_witness :
    balanceScoreOfHours 8 7 = 85 ∧
    adjustScoreForStress (balanceScoreOfHours 8 7) (some stressedHealth) =
      balanceScoreOfHours 8 7 - 10 := by
  have h := balance_score_thresholds_amended 8 7 (by norm_num) (by norm_num)
    (by norm_num)
  exact ⟨h.1 (by norm_num [max_eq_left]), h.2.2.2 stressedHealth
    (by norm_num [stressedHealth])⟩

/-- C6: every handler invoked on a state whose current task is absent or
names a different agent returns the state unchanged — a no-op
passthrough, not an error. -/
theorem handler_noop_on_misroute :
    (∀ (s : State) a r pp wp ar now,
      (∀ t, s.current_task = some t → t.agent ≠ .health) →
      healthNode s a r pp wp ar now = s) ∧
    (∀ (s : State) p r ar now,
      (∀ t, s.current_task = some t → t.agent ≠ .plan) →
      planNode s p r ar now = s) ∧
    (∀ (s : State) f r ar now,
      (∀ t, s.current_task = some t → t.agent ≠ .data) →
      dataNode s f r ar now = s) ∧
    (∀ (s : State) a r ar now,
      (∀ t, s.current_task = some t → t.agent ≠ .worklife) →
      worklifeNode s a r ar now = s) ∧
    (∀ (s : State) resp intent conf now,
      (∀ t, s.current_task = some t → t.agent ≠ .communication) →
      communicationNode s resp intent conf now = s) := by
  refine ⟨?_, ?_, ?_, ?_, ?_⟩ <;> intro s
  · intro a r pp wp ar now h
    cases hc : s.current_task with
    | none => simp [healthNode, hc]
    | some t => simp [healthNode, hc, h t hc]
  · intro p r ar now h
    cases hc : s.current_task with
    | none => simp [planNode, hc]
    | some t => simp [planNode, hc, h t hc]
  · intro f r ar now h
    cases hc : s.current_task with
    | none => simp [dataNode, hc]
    | some t => simp [dataNode, hc, h t hc]
  · intro a r ar now h
    cases hc : s.current_task with
    | none => simp [worklifeNode, hc]
    | some t => simp [worklifeNode, hc, h t hc]
  · intro resp intent conf now h
    cases hc : s.current_task with
    | none => simp [communicationNode, hc]
    | some t => simp [communicationNode, hc, h t hc]

/-- Witness for C6: the worklife handler passes a state with no current
task through unchanged, and the health handler passes a state routed to
the communication agent through unchanged. -/
theorem handler_noop_on_misroute_witness :
    worklifeNode initState sampleWorklife "r" "a" "t1" = initState ∧
    healthNode (routedState .communication) sampleHealth "r" "p" "w" "a" "t1" =
      routedState .communication := by
  have h := handler_noop_on_misroute
  refine ⟨h.2.2.2.1 initState sampleWorklife "r" "a" "t1" ?_,
    h.1 (routedState .communication) sampleHealth "r" "p" "w" "a" "t1" ?_⟩
  · intro t ht
    simp [initState] at ht
  · intro t ht
    simp [routedState, initState] at ht
    simp [← ht, pendingTask]

/-- C9: the per-user conversation cache holds at most 50 entries after
every update; appending to a user whose cache already holds 50 entries
keeps exactly the 50 most recent (oldest dropped, new entry last); other
users' caches are untouched. -/
theorem conversation_cache_eviction (cache : Int → List ConvEntry)
    (uid : Int) (m snd now : String) :
    (updateConversationHistory cache uid m snd now uid).length ≤ 50 ∧
    ((cache uid).length = 50 →
      updateConversationHistory cache uid m snd now uid =
        (cache uid).drop 1 ++ [⟨m, snd, now⟩]) ∧
    (∀ u, u ≠ uid → updateConversationHistory cache uid m snd now u = cache u) := by
  have heq : updateConversationHistory cache uid m snd now uid =
      (if 50 < (cache uid ++ [(⟨m, snd, now⟩ : ConvEntry)]).length then
        (cache uid ++ [(⟨m, snd, now⟩ : ConvEntry)]).drop
          ((cache uid ++ [(⟨m, snd, now⟩ : ConvEntry)]).length - 50)
      else cache uid ++ [(⟨m, snd, now⟩ : ConvEntry)]) := by
    unfold updateConversationHistory
    rw [if_pos rfl]
  refine ⟨?_, ?_, ?_⟩
  · rw [heq]
    by_cases hl : 50 < (cache uid ++ [(⟨m, snd, now⟩ : ConvEntry)]).length
    · rw [if_pos hl, List.length_drop]
      omega
    · rw [if_neg hl]
      omega
  · intro h50
    have hlen : (cache uid ++ [(⟨m, snd, now⟩ : ConvEntry)]).length = 51 := by
      simp [h50]
    rw [heq, if_pos (by rw [hlen]; norm_num), hlen]
    have h1 : (51 : Nat) - 50 = 1 := by norm_num
    rw [h1, List.drop_append_of_le_length (by rw [h50]; norm_num)]
  · intro u hu
    simp [updateConversationHistory, hu]

/-- Witness for C9: appending a 51st entry to a cache holding exactly 50
entries for user 1 yields the 50 most recent with the oldest dropped,
and user 2's cache is untouched. -/
theorem conversation_cache_eviction_witness :
    (updateConversationHistory sampleCache 1 "new" "user" "t1" 1).length ≤ 50 ∧
    updateConversationHistory sampleCache 1 "new" "user" "t1" 1 =
      (sampleCache 1).drop 1 ++ [⟨"new", "user", "t1"⟩] ∧
    updateConversationHistory sampleCache 1 "new" "user" "t1" 2 =
      sampleCache 2 := by
  have h := conversation_cache_eviction sampleCache 1 "new" "user" "t1"
  exact ⟨h.1, h.2.1 (by simp [sampleCache]), h.2.2 2 (by decide)⟩

/-- C5 counterexample: the Communication handler on a correctly routed
state appends TWO messages to the log (a user message echoing the input,
then the assistant message) — it does not append exactly one message,
and the log after the call is not the old log plus a single entry. -/
theorem communication_two_messages_cx :
    (communicationNode (routedState .communication) "응답" "general_inquiry"
        (1/2) "t1").messages.length =
      (routedState .communication).messages.length + 2 ∧
    ¬ ∃ m : Message,
      (communicationNode (routedState .communication) "응답" "general_inquiry"
          (1/2) "t1").messages =
        (routedState .communication).messages ++ [m] := by
  constructor
  · simp [communicationNode, routedState, initState, pendingTask]
  · rintro ⟨m, hm⟩
    simp [communicationNode, routedState, initState, pendingTask] at hm

/-- C5 amended: each of Health, Plan, Data and WorkLife, invoked on a
correctly routed state with a non-empty task history and a body that
does not raise, appends exactly one assistant message tagged with its
own agent name, marks the last task-history entry done with the
completion timestamp, writes its domain record into its SharedState slot
(`health_data` / `schedule_data` / `feedback_data` / `worklife_data`),
and sets its specific completed status tag; the Communication handler
does the same except that it appends a user message followed by the
assistant message and, having no domain record slot, writes its response
text into `ai_response`. -/
theorem handler_side_effects_amended :
    (∀ (s : State) tk pre last a r pp wp ar now,
      s.current_task = some tk → tk.agent = .health →
      s.task_history = pre ++ [last] →
      (healthNode s a r pp wp ar now).messages = s.messages ++
        [{ role := "assistant", content := "[Health Agent] 건강 분석 완료"
           timestamp := now, agent := some "health_agent" }] ∧
      (healthNode s a r pp wp ar now).task_history =
        pre ++ [{ last with done := true, done_at := now }] ∧
      (healthNode s a r pp wp ar now).health_data = some a ∧
      (healthNode s a r pp wp ar now).system_status =
        "health_analysis_completed") ∧
    (∀ (s : State) tk pre last p r ar now,
      s.current_task = some tk → tk.agent = .plan →
      s.task_history = pre ++ [last] →
      (planNode s p r ar now).messages = s.messages ++
        [{ role := "assistant", content := "[Plan Agent] 일정 계획 완료"
           timestamp := now, agent := some "plan_agent" }] ∧
      (planNode s p r ar now).task_history =
        pre ++ [{ last with done := true, done_at := now }] ∧
      (planNode s p r ar now).schedule_data = some p ∧
      (planNode s p r ar now).system_status = "schedule_plan_completed") ∧
    (∀ (s : State) tk pre last f r ar now,
      s.current_task = some tk → tk.agent = .data →
      s.task_history = pre ++ [last] →
      (dataNode s f r ar now).messages = s.messages ++
        [{ role := "assistant", content := "[Data Agent] 데이터 분석 완료"
           timestamp := now, agent := some "data_agent" }] ∧
      (dataNode s f r ar now).task_history =
        pre ++ [{ last with done := true, done_at := now }] ∧
      (dataNode s f r ar now).feedback_data = s.feedback_data ++ f.toList ∧
      (dataNode s f r ar now).system_status = "data_analysis_completed") ∧
    (∀ (s : State) tk pre last a r ar now,
      s.current_task = some tk → tk.agent = .worklife →
      s.task_history = pre ++ [last] →
      (worklifeNode s a r ar now).messages = s.messages ++
        [{ role := "assistant", content := "[WorkLife Agent] 워라벨 분석 완료"
           timestamp := now, agent := some "worklife_balance_agent" }] ∧
      (worklifeNode s a r ar now).task_history =
        pre ++ [{ last with done := true, done_at := now }] ∧
      (worklifeNode s a r ar now).worklife_data = some a ∧
      (worklifeNode s a r ar now).system_status =
        "worklife_analysis_completed") ∧
    (∀ (s : State) tk pre last resp intent conf now,
      s.current_task = some tk → tk.agent = .communication →
      s.task_history = pre ++ [last] →
      (communicationNode s resp intent conf now).messages = s.messages ++
        [{ role := "user", content := s.user_input
           timestamp := now, agent := none },
         { role := "assistant", content := resp
           timestamp := now, agent := some "communication_agent" }] ∧
      (communicationNode s resp intent conf now).task_history =
        pre ++ [{ last with done := true, done_at := now }] ∧
      (communicationNode s resp intent conf now).ai_response = resp ∧
      (communicationNode s resp intent conf now).system_status =
        "communication_completed") := by
  refine ⟨?_, ?_, ?_, ?_, ?_⟩
  · intro s tk pre last a r pp wp ar now hcur hag hhist
    refine ⟨?_, ?_, ?_, ?_⟩ <;>
      simp [healthNode, hcur, hag, hhist, markLastDone_concat]
  · intro s tk pre last p r ar now hcur hag hhist
    refine ⟨?_, ?_, ?_, ?_⟩ <;>
      simp [planNode, hcur, hag, hhist, markLastDone_concat]
  · intro s tk pre last f r ar now hcur hag hhist
    refine ⟨?_, ?_, ?_, ?_⟩ <;>
      simp [dataNode, hcur, hag, hhist, markLastDone_concat]
  · intro s tk pre last a r ar now hcur hag hhist
    refine ⟨?_, ?_, ?_, ?_⟩ <;>
      simp [worklifeNode, hcur, hag, hhist, markLastDone_concat]
  · intro s tk pre last resp intent conf now hcur hag hhist
    refine ⟨?_, ?_, ?_, ?_⟩ <;>
      simp [communicationNode, hcur, hag, hhist, markLastDone_concat]

/-- Witness for C5 (amended): concrete runs of the WorkLife and
Communication handlers on correctly routed states. -/
theorem handler_side_effects_amended_witness :
    (worklifeNode (routedState .worklife) sampleWorklife "r" "a" "t1").worklife_data =
      some sampleWorklife ∧
    (worklifeNode (routedState .worklife) sampleWorklife "r" "a" "t1").task_history =
      [{ pendingTask .worklife with done := true, done_at := "t1" }] ∧
    (worklifeNode (routedState .worklife) sampleWorklife "r" "a" "t1").system_status =
      "worklife_analysis_completed" ∧
    (communicationNode (routedState .communication) "응답" "general_inquiry"
        (1/2) "t1").system_status = "communication_completed" ∧
    (communicationNode (routedState .communication) "응답" "general_inquiry"
        (1/2) "t1").ai_response = "응답" := by
  have hw := handler_side_effects_amended.2.2.2.1 (routedState .worklife)
    (pendingTask .worklife) [] (pendingTask .worklife) sampleWorklife "r" "a"
    "t1" rfl rfl (by simp [routedState])
  have hc := handler_side_effects_amended.2.2.2.2 (routedState .communication)
    (pendingTask .communication) [] (pendingTask .communication) "응답"
    "general_inquiry" (1/2) "t1" rfl rfl (by simp [routedState])
  refine ⟨hw.2.2.1, ?_, hw.2.2.2, hc.2.2.2, hc.2.2.1⟩
  have := hw.2.1
  simpa using this

end Flandy
